import Mathlib

/-!
Verification development for the NVIDIA Real-time Denoiser repository
(REBLUR diffuse+specular occlusion pass-graph builder, the ray-traced
renderer sample, and the public NRD API surface).

Shallow embedding conventions: the imperative pass-graph builder
`InstanceImpl::Add_ReblurDiffuseSpecularOcclusion` is embedded as a list of
`Pass` records whose input/output lists mirror the `PushInput`/`PushOutput`
call sequence verbatim; sample-side helpers (`BuildOptimizedTransitions`,
the TLAS instance classification, the test-mode snapshot file) are embedded
as pure functions over explicit state.
-/

namespace NRD

/-- Caller-bound logical resource slots (`ResourceType` in NRDDescs.h),
restricted to the members referenced by the occlusion builder. -/
inductive ResourceType
  | IN_MV
  | IN_NORMAL_ROUGHNESS
  | IN_VIEWZ
  | IN_DIFF_HITDIST
  | IN_SPEC_HITDIST
  | IN_DIFF_CONFIDENCE
  | IN_SPEC_CONFIDENCE
  | IN_DISOCCLUSION_THRESHOLD_MIX
  | OUT_DIFF_HITDIST
  | OUT_SPEC_HITDIST
  deriving DecidableEq, Repr

/-- Permanent-pool slots declared by `Add_ReblurDiffuseSpecularOcclusion`
(enum `Permanent` in the builder). -/
inductive Permanent
  | PREV_VIEWZ
  | PREV_NORMAL_ROUGHNESS
  | PREV_INTERNAL_DATA
  | DIFF_FAST_HISTORY
  | SPEC_FAST_HISTORY
  | SPEC_HITDIST_FOR_TRACKING_PING
  | SPEC_HITDIST_FOR_TRACKING_PONG
  deriving DecidableEq, Repr

/-- Transient-pool slots declared by `Add_ReblurDiffuseSpecularOcclusion`
(enum `Transient` in the builder). -/
inductive Transient
  | DATA1
  | DIFF_TMP1
  | DIFF_TMP2
  | DIFF_FAST_HISTORY
  | SPEC_TMP1
  | SPEC_TMP2
  | SPEC_FAST_HISTORY
  | TILES
  deriving DecidableEq, Repr, Fintype

/-- A resource reference as it appears in a `PushInput`/`PushOutput` call:
a caller-bound `ResourceType` slot, a permanent slot, a transient slot, the
two-argument ping-pong form `Push...(a, b)` (resource plus the slot it is
swapped with on alternate frames), or the shared `REBLUR_DUMMY` placeholder
(the placeholder texture itself lives outside src; only its role as a shared
dummy binding is needed here). -/
inductive Resource
  | res : ResourceType → Resource
  | perm : Permanent → Resource
  | tran : Transient → Resource
  | permPingPong : Permanent → Permanent → Resource
  | dummy
  deriving DecidableEq, Repr

/-- One `PushPass` block: the pass name with its ordered input and output
lists, exactly as pushed by the builder. -/
structure Pass where
  name : String
  inputs : List Resource
  outputs : List Resource
  deriving DecidableEq, Repr

/-- Modelled from the spec: the literal value of the compile-time constant
`REBLUR_OCCLUSION_HITDIST_RECONSTRUCTION_PERMUTATION_NUM` is not under src;
the spec fixes the reconstruction loop to the 1-bit kernel-size flag space
(3x3 vs 5x5), i.e. 2 permutations. -/
def REBLUR_OCCLUSION_HITDIST_RECONSTRUCTION_PERMUTATION_NUM : ℕ := 2

/-- Modelled from the spec: the literal value of the compile-time constant
`REBLUR_OCCLUSION_TEMPORAL_ACCUMULATION_PERMUTATION_NUM` is not under src;
the spec fixes the temporal-accumulation loop to the 3-bit flag space
(up to 8 permutations). -/
def REBLUR_OCCLUSION_TEMPORAL_ACCUMULATION_PERMUTATION_NUM : ℕ := 8

/-- The "Classify tiles" pass of `Add_ReblurDiffuseSpecularOcclusion`. -/
def classifyTilesPass : Pass :=
  { name := "Classify tiles"
    inputs := [Resource.res ResourceType.IN_VIEWZ]
    outputs := [Resource.tran Transient.TILES] }

/-- One iteration of the "Hit distance reconstruction" permutation loop of
`Add_ReblurDiffuseSpecularOcclusion`; the permutation index `i` selects the
3x3 vs 5x5 shader pair only and does not change the bound resources. -/
def hitDistReconstructionPass (_i : ℕ) : Pass :=
  { name := "Hit distance reconstruction"
    inputs :=
      [ Resource.tran Transient.TILES
      , Resource.res ResourceType.IN_NORMAL_ROUGHNESS
      , Resource.res ResourceType.IN_VIEWZ
      , Resource.res ResourceType.IN_DIFF_HITDIST
      , Resource.res ResourceType.IN_SPEC_HITDIST ]
    outputs :=
      [ Resource.tran Transient.DIFF_TMP1
      , Resource.tran Transient.SPEC_TMP1 ] }

/-- One iteration of the "Temporal accumulation" permutation loop of
`Add_ReblurDiffuseSpecularOcclusion`: the three booleans are decoded from
the permutation index exactly as in the source
(`hasDisocclusionThresholdMix = (i >> 2) & 1`, `hasConfidenceInputs =
(i >> 1) & 1`, `isAfterReconstruction = (i >> 0) & 1`), and each optional
input is bound iff its flag is set, with `REBLUR_DUMMY` bound otherwise. -/
def temporalAccumulationPass (i : ℕ) : Pass :=
  let hasDisocclusionThresholdMix : Bool := ((i >>> 2) &&& 1) != 0
  let hasConfidenceInputs : Bool := ((i >>> 1) &&& 1) != 0
  let isAfterReconstruction : Bool := ((i >>> 0) &&& 1) != 0
  { name := "Temporal accumulation"
    inputs :=
      [ Resource.tran Transient.TILES
      , Resource.res ResourceType.IN_NORMAL_ROUGHNESS
      , Resource.res ResourceType.IN_VIEWZ
      , Resource.res ResourceType.IN_MV
      , Resource.perm Permanent.PREV_VIEWZ
      , Resource.perm Permanent.PREV_NORMAL_ROUGHNESS
      , Resource.perm Permanent.PREV_INTERNAL_DATA
      , if hasDisocclusionThresholdMix then
          Resource.res ResourceType.IN_DISOCCLUSION_THRESHOLD_MIX
        else Resource.dummy
      , if hasConfidenceInputs then
          Resource.res ResourceType.IN_DIFF_CONFIDENCE
        else Resource.dummy
      , if hasConfidenceInputs then
          Resource.res ResourceType.IN_SPEC_CONFIDENCE
        else Resource.dummy
      , if isAfterReconstruction then Resource.tran Transient.DIFF_TMP1
        else Resource.res ResourceType.IN_DIFF_HITDIST
      , if isAfterReconstruction then Resource.tran Transient.SPEC_TMP1
        else Resource.res ResourceType.IN_SPEC_HITDIST
      , Resource.res ResourceType.OUT_DIFF_HITDIST
      , Resource.res ResourceType.OUT_SPEC_HITDIST
      , Resource.perm Permanent.DIFF_FAST_HISTORY
      , Resource.perm Permanent.SPEC_FAST_HISTORY
      , Resource.permPingPong Permanent.SPEC_HITDIST_FOR_TRACKING_PING
          Permanent.SPEC_HITDIST_FOR_TRACKING_PONG ]
    outputs :=
      [ Resource.tran Transient.DIFF_TMP2
      , Resource.tran Transient.SPEC_TMP2
      , Resource.tran Transient.DIFF_FAST_HISTORY
      , Resource.tran Transient.SPEC_FAST_HISTORY
      , Resource.permPingPong Permanent.SPEC_HITDIST_FOR_TRACKING_PONG
          Permanent.SPEC_HITDIST_FOR_TRACKING_PING
      , Resource.tran Transient.DATA1 ] }

/-- The "History fix" pass of `Add_ReblurDiffuseSpecularOcclusion`. -/
def historyFixPass : Pass :=
  { name := "History fix"
    inputs :=
      [ Resource.tran Transient.TILES
      , Resource.res ResourceType.IN_NORMAL_ROUGHNESS
      , Resource.tran Transient.DATA1
      , Resource.res ResourceType.IN_VIEWZ
      , Resource.tran Transient.DIFF_TMP2
      , Resource.tran Transient.SPEC_TMP2
      , Resource.tran Transient.DIFF_FAST_HISTORY
      , Resource.tran Transient.SPEC_FAST_HISTORY ]
    outputs :=
      [ Resource.tran Transient.DIFF_TMP1
      , Resource.tran Transient.SPEC_TMP1
      , Resource.perm Permanent.DIFF_FAST_HISTORY
      , Resource.perm Permanent.SPEC_FAST_HISTORY ] }

/-- The "Blur" pass of `Add_ReblurDiffuseSpecularOcclusion`. -/
def blurPass : Pass :=
  { name := "Blur"
    inputs :=
      [ Resource.tran Transient.TILES
      , Resource.res ResourceType.IN_NORMAL_ROUGHNESS
      , Resource.tran Transient.DATA1
      , Resource.tran Transient.DIFF_TMP1
      , Resource.tran Transient.SPEC_TMP1
      , Resource.res ResourceType.IN_VIEWZ ]
    outputs :=
      [ Resource.tran Transient.DIFF_TMP2
      , Resource.tran Transient.SPEC_TMP2
      , Resource.perm Permanent.PREV_VIEWZ ] }

/-- The "Post-blur" pass of `Add_ReblurDiffuseSpecularOcclusion`. -/
def postBlurPass : Pass :=
  { name := "Post-blur"
    inputs :=
      [ Resource.tran Transient.TILES
      , Resource.res ResourceType.IN_NORMAL_ROUGHNESS
      , Resource.tran Transient.DATA1
      , Resource.tran Transient.DIFF_TMP2
      , Resource.tran Transient.SPEC_TMP2
      , Resource.perm Permanent.PREV_VIEWZ ]
    outputs :=
      [ Resource.perm Permanent.PREV_NORMAL_ROUGHNESS
      , Resource.res ResourceType.OUT_DIFF_HITDIST
      , Resource.res ResourceType.OUT_SPEC_HITDIST
      , Resource.perm Permanent.PREV_INTERNAL_DATA ] }

/-- The "Split screen" pass of `Add_ReblurDiffuseSpecularOcclusion`. -/
def splitScreenPass : Pass :=
  { name := "Split screen"
    inputs :=
      [ Resource.res ResourceType.IN_VIEWZ
      , Resource.res ResourceType.IN_DIFF_HITDIST
      , Resource.res ResourceType.IN_SPEC_HITDIST ]
    outputs :=
      [ Resource.res ResourceType.OUT_DIFF_HITDIST
      , Resource.res ResourceType.OUT_SPEC_HITDIST ] }

/-- Modelled from the spec: the expansion of `REBLUR_ADD_VALIDATION_DISPATCH`
is not under src (only its invocation with arguments `Transient::DATA1`,
`ResourceType::IN_DIFF_HITDIST`, `ResourceType::IN_SPEC_HITDIST` is); per
the spec the validation pass "overlays diagnostic visualization using the
internal-data buffer and both outputs". -/
def validationPass : Pass :=
  { name := "Validation"
    inputs :=
      [ Resource.tran Transient.DATA1
      , Resource.res ResourceType.IN_DIFF_HITDIST
      , Resource.res ResourceType.IN_SPEC_HITDIST ]
    outputs :=
      [ Resource.res ResourceType.OUT_DIFF_HITDIST
      , Resource.res ResourceType.OUT_SPEC_HITDIST ] }

/-- The full ordered pass sequence declared by
`Add_ReblurDiffuseSpecularOcclusion`: classify tiles, the reconstruction
permutations, the temporal-accumulation permutations, history fix, blur,
post-blur, split screen, validation. -/
def reblurDiffuseSpecularOcclusionPasses : List Pass :=
  [classifyTilesPass]
    ++ (List.range REBLUR_OCCLUSION_HITDIST_RECONSTRUCTION_PERMUTATION_NUM).map
        hitDistReconstructionPass
    ++ (List.range REBLUR_OCCLUSION_TEMPORAL_ACCUMULATION_PERMUTATION_NUM).map
        temporalAccumulationPass
    ++ [historyFixPass, blurPass, postBlurPass, splitScreenPass, validationPass]

end NRD

namespace NRD

/-- C1: for each of the up-to-8 temporal-accumulation permutations of the
REBLUR diffuse+specular occlusion builder (flags: disocclusion-threshold-mix
at bit 2, confidence at bit 1, after-reconstruction at bit 0), the pass binds
the disocclusion-threshold-mix input iff its flag is set (the shared dummy
placeholder otherwise), binds the diffuse and specular confidence inputs iff
the confidence flag is set (the dummy otherwise), and binds the
reconstruction-pass output temporaries as hit-distance inputs iff the
after-reconstruction flag is set (the raw caller hit-distance inputs
otherwise). -/
theorem reblur_dso_temporal_accumulation_optional_bindings (i : ℕ) (h : i < 8) :
    ((temporalAccumulationPass i).inputs.get? 7
      = some (if i.testBit 2 then Resource.res ResourceType.IN_DISOCCLUSION_THRESHOLD_MIX
              else Resource.dummy))
    ∧ ((temporalAccumulationPass i).inputs.get? 8
      = some (if i.testBit 1 then Resource.res ResourceType.IN_DIFF_CONFIDENCE
              else Resource.dummy))
    ∧ ((temporalAccumulationPass i).inputs.get? 9
      = some (if i.testBit 1 then Resource.res ResourceType.IN_SPEC_CONFIDENCE
              else Resource.dummy))
    ∧ ((temporalAccumulationPass i).inputs.get? 10
      = some (if i.testBit 0 then Resource.tran Transient.DIFF_TMP1
              else Resource.res ResourceType.IN_DIFF_HITDIST))
    ∧ ((temporalAccumulationPass i).inputs.get? 11
      = some (if i.testBit 0 then Resource.tran Transient.SPEC_TMP1
              else Resource.res ResourceType.IN_SPEC_HITDIST))
    ∧ (Resource.res ResourceType.IN_DISOCCLUSION_THRESHOLD_MIX
        ∈ (temporalAccumulationPass i).inputs ↔ i.testBit 2)
    ∧ (Resource.res ResourceType.IN_DIFF_CONFIDENCE
        ∈ (temporalAccumulationPass i).inputs ↔ i.testBit 1)
    ∧ (Resource.res ResourceType.IN_SPEC_CONFIDENCE
        ∈ (temporalAccumulationPass i).inputs ↔ i.testBit 1)
    ∧ (Resource.tran Transient.DIFF_TMP1 ∈ (temporalAccumulationPass i).inputs
        ↔ i.testBit 0)
    ∧ (Resource.tran Transient.SPEC_TMP1 ∈ (temporalAccumulationPass i).inputs
        ↔ i.testBit 0)
    ∧ (Resource.res ResourceType.IN_DIFF_HITDIST ∈ (temporalAccumulationPass i).inputs
        ↔ ¬ i.testBit 0)
    ∧ (Resource.res ResourceType.IN_SPEC_HITDIST ∈ (temporalAccumulationPass i).inputs
        ↔ ¬ i.testBit 0) := by
  interval_cases i <;> decide

/-- Witness for C1 at permutation index 5 (disocclusion-threshold-mix and
after-reconstruction flags set, confidence flag clear). -/
theorem reblur_dso_temporal_accumulation_optional_bindings_witness :
    (5 : ℕ) < 8
    ∧ ((temporalAccumulationPass 5).inputs.get? 7
        = some (Resource.res ResourceType.IN_DISOCCLUSION_THRESHOLD_MIX))
    ∧ ((temporalAccumulationPass 5).inputs.get? 8 = some Resource.dummy)
    ∧ ((temporalAccumulationPass 5).inputs.get? 10
        = some (Resource.tran Transient.DIFF_TMP1)) := by
  refine ⟨by decide, ?_, ?_, ?_⟩
  · have h := reblur_dso_temporal_accumulation_optional_bindings 5 (by decide)
    simpa using h.1
  · have h := reblur_dso_temporal_accumulation_optional_bindings 5 (by decide)
    simpa using h.2.2.1
  · have h := reblur_dso_temporal_accumulation_optional_bindings 5 (by decide)
    simpa using h.2.2.2.1

end NRD

namespace NRD

/-- Modelled from the spec: the frame-parity resolution of the two-argument
`PushInput`/`PushOutput` ping-pong form lives in the orchestration core
outside src; per the spec, ping-pong permanent slots swap read/write roles
every frame. On even frames the first-named slot is used, on odd frames the
slot it is declared to swap with. -/
def resolvePingPong (a b : Permanent) (frameIndex : ℕ) : Permanent :=
  if frameIndex % 2 = 0 then a else b

/-- The permanent slot read as specular hit-distance-for-tracking history by
the temporal-accumulation pass at a given frame: the frame-parity resolution
of the declared input `PushInput(SPEC_HITDIST_FOR_TRACKING_PING,
SPEC_HITDIST_FOR_TRACKING_PONG)`. -/
def specHitDistTrackingReadSlot (frameIndex : ℕ) : Permanent :=
  resolvePingPong Permanent.SPEC_HITDIST_FOR_TRACKING_PING
    Permanent.SPEC_HITDIST_FOR_TRACKING_PONG frameIndex

/-- The permanent slot written as new specular hit-distance-for-tracking by
the temporal-accumulation pass at a given frame: the frame-parity resolution
of the declared output `PushOutput(SPEC_HITDIST_FOR_TRACKING_PONG,
SPEC_HITDIST_FOR_TRACKING_PING)`. -/
def specHitDistTrackingWriteSlot (frameIndex : ℕ) : Permanent :=
  resolvePingPong Permanent.SPEC_HITDIST_FOR_TRACKING_PONG
    Permanent.SPEC_HITDIST_FOR_TRACKING_PING frameIndex

/-- C2: every temporal-accumulation permutation declares the specular
hit-distance-for-tracking pair as the ping-pong input `(PING, PONG)` and the
ping-pong output `(PONG, PING)`; under frame-parity resolution the pass never
reads and writes the same half in one frame, the read and write roles strictly
alternate between consecutive frames, and after any even number of consecutive
frames the read/write assignment equals its starting configuration. -/
theorem reblur_dso_spec_hitdist_tracking_ping_pong (f k i : ℕ) (h : i < 8) :
    (Resource.permPingPong (specHitDistTrackingReadSlot 0) (specHitDistTrackingReadSlot 1)
        ∈ (temporalAccumulationPass i).inputs)
    ∧ (Resource.permPingPong (specHitDistTrackingWriteSlot 0) (specHitDistTrackingWriteSlot 1)
        ∈ (temporalAccumulationPass i).outputs)
    ∧ specHitDistTrackingReadSlot f ≠ specHitDistTrackingWriteSlot f
    ∧ specHitDistTrackingReadSlot (f + 1) = specHitDistTrackingWriteSlot f
    ∧ specHitDistTrackingWriteSlot (f + 1) = specHitDistTrackingReadSlot f
    ∧ specHitDistTrackingReadSlot (f + 2 * k) = specHitDistTrackingReadSlot f
    ∧ specHitDistTrackingWriteSlot (f + 2 * k) = specHitDistTrackingWriteSlot f := by
  refine ⟨?_, ?_, ?_, ?_, ?_, ?_, ?_⟩
  · interval_cases i <;> decide
  · interval_cases i <;> decide
  all_goals
    rcases Nat.mod_two_eq_zero_or_one f with h0 | h0
  all_goals
    first
      | (have ha : (f + 1) % 2 = 1 := by omega
         have hb : (f + 2 * k) % 2 = 0 := by omega
         simp [specHitDistTrackingReadSlot, specHitDistTrackingWriteSlot,
           resolvePingPong, h0, ha, hb])
      | (have ha : (f + 1) % 2 = 0 := by omega
         have hb : (f + 2 * k) % 2 = 1 := by omega
         simp [specHitDistTrackingReadSlot, specHitDistTrackingWriteSlot,
           resolvePingPong, h0, ha, hb])

/-- Witness for C2 at frame 4, frame gap 6, permutation index 3. -/
theorem reblur_dso_spec_hitdist_tracking_ping_pong_witness :
    (3 : ℕ) < 8
    ∧ specHitDistTrackingReadSlot 4 ≠ specHitDistTrackingWriteSlot 4
    ∧ specHitDistTrackingReadSlot (4 + 2 * 3) = specHitDistTrackingReadSlot 4 := by
  have h := reblur_dso_spec_hitdist_tracking_ping_pong 4 3 3 (by decide)
  exact ⟨by decide, h.2.2.1, h.2.2.2.2.2.1⟩

/-- C3: in the pass sequence declared by the REBLUR diffuse+specular
occlusion builder, every transient-pool slot appearing as an input of a pass
is produced as an output of some pass appearing strictly earlier in the
declared sequence. -/
theorem reblur_dso_transient_inputs_written_by_earlier_pass :
    ∀ pr ∈ reblurDiffuseSpecularOcclusionPasses.enum, ∀ t : Transient,
      Resource.tran t ∈ pr.2.inputs →
      Resource.tran t ∈ (reblurDiffuseSpecularOcclusionPasses.take pr.1).flatMap Pass.outputs := by
  decide

/-- Witness for C3: the internal-data transient read by the history-fix pass
(position 11) is written by an earlier pass. -/
theorem reblur_dso_transient_inputs_written_by_earlier_pass_witness :
    Resource.tran Transient.DATA1
      ∈ (reblurDiffuseSpecularOcclusionPasses.take 11).flatMap Pass.outputs :=
  reblur_dso_transient_inputs_written_by_earlier_pass (11, historyFixPass) (by decide)
    Transient.DATA1 (by decide)

/-- C6: the REBLUR diffuse+specular occlusion builder declares its passes in
the fixed order classify tiles, hit-distance reconstruction permutations,
temporal-accumulation permutations, history fix, blur, post-blur, split
screen, validation; the split-screen pass reads view-space depth and the raw
caller hit-distance inputs and writes the caller-visible denoised outputs;
and it is declared directly after the post-blur pass, the only earlier pass
whose outputs contain those caller-visible outputs. -/
theorem reblur_dso_pass_order_and_split_screen :
    (reblurDiffuseSpecularOcclusionPasses.map Pass.name
      = ["Classify tiles",
         "Hit distance reconstruction", "Hit distance reconstruction",
         "Temporal accumulation", "Temporal accumulation", "Temporal accumulation",
         "Temporal accumulation", "Temporal accumulation", "Temporal accumulation",
         "Temporal accumulation", "Temporal accumulation",
         "History fix", "Blur", "Post-blur", "Split screen", "Validation"])
    ∧ reblurDiffuseSpecularOcclusionPasses.get? 14 = some splitScreenPass
    ∧ reblurDiffuseSpecularOcclusionPasses.get? 13 = some postBlurPass
    ∧ splitScreenPass.inputs
      = [Resource.res ResourceType.IN_VIEWZ,
         Resource.res ResourceType.IN_DIFF_HITDIST,
         Resource.res ResourceType.IN_SPEC_HITDIST]
    ∧ splitScreenPass.outputs
      = [Resource.res ResourceType.OUT_DIFF_HITDIST,
         Resource.res ResourceType.OUT_SPEC_HITDIST]
    ∧ Resource.res ResourceType.OUT_DIFF_HITDIST ∈ postBlurPass.outputs
    ∧ Resource.res ResourceType.OUT_SPEC_HITDIST ∈ postBlurPass.outputs
    ∧ (∀ j < 14, j ≠ 13 →
        Resource.res ResourceType.OUT_DIFF_HITDIST
          ∉ (reblurDiffuseSpecularOcclusionPasses.getD j classifyTilesPass).outputs
        ∧ Resource.res ResourceType.OUT_SPEC_HITDIST
          ∉ (reblurDiffuseSpecularOcclusionPasses.getD j classifyTilesPass).outputs) := by
  decide

/-- Witness for C6: instantiation of the bounded quantifier at the blur pass
(position 12), which writes neither caller-visible output. -/
theorem reblur_dso_pass_order_and_split_screen_witness :
    Resource.res ResourceType.OUT_DIFF_HITDIST
      ∉ (reblurDiffuseSpecularOcclusionPasses.getD 12 classifyTilesPass).outputs :=
  (reblur_dso_pass_order_and_split_screen.2.2.2.2.2.2.2 12 (by decide) (by decide)).1

end NRD

namespace Sample

/-- Instance classification flag `FLAG_OPAQUE_OR_ALPHA_OPAQUE` of the
sample (09_RayTracing_NRD.cpp). -/
def FLAG_OPAQUE_OR_ALPHA_OPAQUE : ℕ := 0x01

/-- Instance classification flag `FLAG_TRANSPARENT` of the sample. -/
def FLAG_TRANSPARENT : ℕ := 0x02

/-- Instance classification flag `FLAG_EMISSION` of the sample. -/
def FLAG_EMISSION : ℕ := 0x04

/-- Instance classification flag `FLAG_FORCED_EMISSION` of the sample. -/
def FLAG_FORCED_EMISSION : ℕ := 0x08

/-- First bit of the classification flags inside the packed instance id
(`FLAG_FIRST_BIT`). -/
def FLAG_FIRST_BIT : ℕ := 20

/-- Mask of the instance-index bits of the packed instance id
(`INSTANCE_ID_MASK = (1 << FLAG_FIRST_BIT) - 1`). -/
def INSTANCE_ID_MASK : ℕ := (1 <<< FLAG_FIRST_BIT) - 1

/-- The per-instance predicates consulted by the classification branch of
`Sample::BuildTopLevelAccelerationStructure`: the material flags, the
sample's `emission` and `emissiveObjects` settings toggles, whether the
instance index exceeds the static instance count, and the outcome of the
`Rand::uf1() > 0.66f` draw. -/
structure InstanceClassificationInput where
  materialIsEmissive : Bool
  materialIsTransparent : Bool
  emission : Bool
  emissiveObjects : Bool
  beyondStaticInstances : Bool
  randAboveTwoThirds : Bool
  deriving DecidableEq, Repr

/-- The `flags` value computed for one emitted instance by
`Sample::BuildTopLevelAccelerationStructure` (instances whose material is
off are skipped before this computation and never emitted). -/
def instanceFlags (c : InstanceClassificationInput) : ℕ :=
  if c.materialIsEmissive then
    if c.emission then FLAG_EMISSION else FLAG_OPAQUE_OR_ALPHA_OPAQUE
  else if c.emissiveObjects && c.beyondStaticInstances && c.randAboveTwoThirds then
    if c.emission then FLAG_FORCED_EMISSION else FLAG_OPAQUE_OR_ALPHA_OPAQUE
  else if c.materialIsTransparent then
    FLAG_TRANSPARENT
  else
    FLAG_OPAQUE_OR_ALPHA_OPAQUE

/-- The packed value `instanceNum | (flags << FLAG_FIRST_BIT)` stored in
`tlasInstance.instanceId`. -/
def instanceIdAndFlags (instanceNum flags : ℕ) : ℕ :=
  instanceNum ||| (flags <<< FLAG_FIRST_BIT)

/-- The fields of `nri::GeometryObjectInstance` written per emitted instance
that carry the classification: the packed instance id and the ray mask. -/
structure GeometryObjectInstance where
  instanceId : ℕ
  mask : ℕ
  deriving DecidableEq, Repr

/-- The classification-carrying part of the TLAS instance emitted by
`Sample::BuildTopLevelAccelerationStructure` for one kept instance:
`instanceId = instanceNum | (flags << 20)` and `mask = flags`. -/
def emitTlasInstance (c : InstanceClassificationInput) (instanceNum : ℕ) :
    GeometryObjectInstance :=
  { instanceId := instanceIdAndFlags instanceNum (instanceFlags c)
    mask := instanceFlags c }

/-- C7: an instance whose material is flagged emissive is classified with the
emission flag (0x04) when the sample's emission toggle is on, and with the
opaque-or-alpha-opaque flag (0x01), not the emission flag, when the toggle
is off. -/
theorem emissive_instance_classification (c : InstanceClassificationInput)
    (h : c.materialIsEmissive = true) :
    (c.emission = true → instanceFlags c = FLAG_EMISSION)
    ∧ (c.emission = false →
        instanceFlags c = FLAG_OPAQUE_OR_ALPHA_OPAQUE
        ∧ instanceFlags c ≠ FLAG_EMISSION) := by
  constructor
  · intro he
    simp [instanceFlags, h, he]
  · intro he
    simp [instanceFlags, h, he, FLAG_OPAQUE_OR_ALPHA_OPAQUE, FLAG_EMISSION]

/-- Witness for C7: an emissive-material instance with the emission toggle
off is classified 0x01. -/
theorem emissive_instance_classification_witness :
    instanceFlags
        { materialIsEmissive := true, materialIsTransparent := false,
          emission := false, emissiveObjects := true,
          beyondStaticInstances := true, randAboveTwoThirds := true }
      = FLAG_OPAQUE_OR_ALPHA_OPAQUE :=
  ((emissive_instance_classification _ rfl).2 rfl).1

/-- C10: for every emitted TLAS instance, the classification value stored in
the ray mask (and packed above bit 20 of the instance id) is exactly one of
0x01, 0x02, 0x04, 0x08 — never zero and never a combination of two or more
flags — and, whenever the instance index fits in the 20 instance-id bits,
shifting the packed instance id right by `FLAG_FIRST_BIT` recovers exactly
that single flag value. -/
theorem tlas_instance_flags_single_flag (c : InstanceClassificationInput)
    (instanceNum : ℕ) :
    ((emitTlasInstance c instanceNum).mask = 0x01
      ∨ (emitTlasInstance c instanceNum).mask = 0x02
      ∨ (emitTlasInstance c instanceNum).mask = 0x04
      ∨ (emitTlasInstance c instanceNum).mask = 0x08)
    ∧ (emitTlasInstance c instanceNum).mask = instanceFlags c
    ∧ (instanceNum ≤ INSTANCE_ID_MASK →
        (emitTlasInstance c instanceNum).instanceId >>> FLAG_FIRST_BIT
          = instanceFlags c) := by
  refine ⟨?_, rfl, ?_⟩
  · rcases c with ⟨me, mt, e, eo, bs, r⟩
    cases me <;> cases mt <;> cases e <;> cases eo <;> cases bs <;> cases r <;>
      simp [emitTlasInstance, instanceFlags, FLAG_OPAQUE_OR_ALPHA_OPAQUE,
        FLAG_TRANSPARENT, FLAG_EMISSION, FLAG_FORCED_EMISSION]
  · intro hn
    have hlt : instanceNum < 2 ^ 20 := by
      have : INSTANCE_ID_MASK = 2 ^ 20 - 1 := by decide
      omega
    show instanceIdAndFlags instanceNum (instanceFlags c) >>> FLAG_FIRST_BIT
      = instanceFlags c
    unfold instanceIdAndFlags FLAG_FIRST_BIT
    apply Nat.eq_of_testBit_eq
    intro j
    rw [Nat.testBit_shiftRight, Nat.testBit_or, Nat.testBit_shiftLeft]
    have hf : instanceNum.testBit (20 + j) = false :=
      Nat.testBit_lt_two_pow (lt_of_lt_of_le hlt (Nat.pow_le_pow_right (by omega) (by omega)))
    simp [hf, Nat.add_sub_cancel_left]

/-- Witness for C10 at a transparent-material instance with index 7. -/
theorem tlas_instance_flags_single_flag_witness :
    (7 : ℕ) ≤ INSTANCE_ID_MASK
    ∧ (emitTlasInstance
          { materialIsEmissive := false, materialIsTransparent := true,
            emission := false, emissiveObjects := false,
            beyondStaticInstances := false, randAboveTwoThirds := false }
          7).instanceId >>> FLAG_FIRST_BIT
        = instanceFlags
            { materialIsEmissive := false, materialIsTransparent := true,
              emission := false, emissiveObjects := false,
              beyondStaticInstances := false, randAboveTwoThirds := false } :=
  ⟨by decide,
   (tlas_instance_flags_single_flag _ 7).2.2 (by decide)⟩

end Sample

namespace Sample

/-- The sample's texture registry (enum `Texture` in 09_RayTracing_NRD.cpp),
indexing the per-texture state table `m_TextureStates`. -/
inductive Texture
  | IntegrateBRDF
  | ViewZ
  | DirectLighting
  | TransparentLighting
  | ObjectMotion
  | Normal_Roughness
  | BaseColor_Metalness
  | Shadow
  | DiffHit
  | SpecHit
  | Unfiltered_Shadow
  | Unfiltered_DiffA
  | Unfiltered_DiffB
  | Unfiltered_SpecHit
  | Composition
  | CompositionHdr
  | TaaHistory
  | TaaHistoryPrev
  | Final
  | MaterialTextures
  deriving DecidableEq, Repr

/-- The access values the sample requests in its transition lists
(a fragment of `nri::AccessBits`). -/
inductive AccessBits
  | SHADER_RESOURCE
  | SHADER_RESOURCE_STORAGE
  | COPY_SOURCE
  | COPY_DESTINATION
  deriving DecidableEq, Repr

/-- The layout values the sample requests in its transition lists
(a fragment of `nri::TextureLayout`). -/
inductive TextureLayout
  | SHADER_RESOURCE
  | GENERAL
  | COPY_SOURCE
  | COPY_DESTINATION
  | PRESENT
  deriving DecidableEq, Repr

/-- One entry of a caller transition list (`struct TextureState` of the
sample): the texture with its requested next access and layout. -/
structure TextureState where
  texture : Texture
  nextAccess : AccessBits
  nextLayout : TextureLayout
  deriving DecidableEq, Repr

/-- One emitted transition barrier
(the fields of `nri::TextureTransitionBarrierDesc` the builder sets). -/
structure TextureTransitionBarrierDesc where
  texture : Texture
  prevAccess : AccessBits
  nextAccess : AccessBits
  prevLayout : TextureLayout
  nextLayout : TextureLayout
  deriving DecidableEq, Repr

/-- Modelled from the spec: the `nri::TextureTransition` helper used by
`BuildOptimizedTransitions` belongs to the vendored rendering interface
(contract-only in this repository); per the spec the builder "diffs a
requested next state per texture against its last-known state", so the
helper produces a barrier from the tracked (access, layout) pair to the
requested one and updates the tracked pair to the requested one. -/
def textureTransitionStep (tracked : Texture → AccessBits × TextureLayout)
    (s : TextureState) :
    (Texture → AccessBits × TextureLayout) × TextureTransitionBarrierDesc :=
  ( fun t => if t = s.texture then (s.nextAccess, s.nextLayout) else tracked t
  , { texture := s.texture
    , prevAccess := (tracked s.texture).1
    , nextAccess := s.nextAccess
    , prevLayout := (tracked s.texture).2
    , nextLayout := s.nextLayout } )

/-- `Sample::BuildOptimizedTransitions`: walks the requested texture states
in order; for each entry whose requested next (access, layout) pair differs
from the texture's last-recorded pair it emits exactly one transition for
that texture and updates the record; entries whose requested pair equals the
record emit nothing. Returns the final record and the emitted transitions in
order. -/
def buildOptimizedTransitions (tracked : Texture → AccessBits × TextureLayout) :
    List TextureState →
      (Texture → AccessBits × TextureLayout) × List TextureTransitionBarrierDesc
  | [] => (tracked, [])
  | s :: rest =>
    if (tracked s.texture).1 ≠ s.nextAccess ∨ (tracked s.texture).2 ≠ s.nextLayout then
      let st := textureTransitionStep tracked s
      let r := buildOptimizedTransitions st.1 rest
      (r.1, st.2 :: r.2)
    else
      buildOptimizedTransitions tracked rest

/-- The declared maximum transition batch size: the callers in
`Sample::RenderFrame` pass `GetCountOf(optimizedTransitions)` for the local
array `nri::TextureTransitionBarrierDesc optimizedTransitions[32]`. -/
def optimizedTransitionsMaxNum : ℕ := 32

/-- The transition list the Composition block of `Sample::RenderFrame`
passes to `BuildOptimizedTransitions`. -/
def compositionTransitions : List TextureState :=
  [ ⟨Texture.DirectLighting, AccessBits.SHADER_RESOURCE, TextureLayout.SHADER_RESOURCE⟩
  , ⟨Texture.TransparentLighting, AccessBits.SHADER_RESOURCE, TextureLayout.SHADER_RESOURCE⟩
  , ⟨Texture.Normal_Roughness, AccessBits.SHADER_RESOURCE, TextureLayout.SHADER_RESOURCE⟩
  , ⟨Texture.BaseColor_Metalness, AccessBits.SHADER_RESOURCE, TextureLayout.SHADER_RESOURCE⟩
  , ⟨Texture.Shadow, AccessBits.SHADER_RESOURCE, TextureLayout.SHADER_RESOURCE⟩
  , ⟨Texture.DiffHit, AccessBits.SHADER_RESOURCE, TextureLayout.SHADER_RESOURCE⟩
  , ⟨Texture.SpecHit, AccessBits.SHADER_RESOURCE, TextureLayout.SHADER_RESOURCE⟩
  , ⟨Texture.Unfiltered_Shadow, AccessBits.SHADER_RESOURCE, TextureLayout.SHADER_RESOURCE⟩
  , ⟨Texture.Unfiltered_DiffA, AccessBits.SHADER_RESOURCE, TextureLayout.SHADER_RESOURCE⟩
  , ⟨Texture.Unfiltered_DiffB, AccessBits.SHADER_RESOURCE, TextureLayout.SHADER_RESOURCE⟩
  , ⟨Texture.Unfiltered_SpecHit, AccessBits.SHADER_RESOURCE, TextureLayout.SHADER_RESOURCE⟩
  , ⟨Texture.Composition, AccessBits.SHADER_RESOURCE_STORAGE, TextureLayout.GENERAL⟩
  , ⟨Texture.CompositionHdr, AccessBits.SHADER_RESOURCE_STORAGE, TextureLayout.GENERAL⟩ ]

/-- The transition list the Temporal block of `Sample::RenderFrame` passes to
`BuildOptimizedTransitions` (`isEven` is the frame parity selecting the TAA
history ping-pong halves). -/
def temporalTransitions (isEven : Bool) : List TextureState :=
  [ ⟨Texture.ViewZ, AccessBits.SHADER_RESOURCE, TextureLayout.SHADER_RESOURCE⟩
  , ⟨Texture.ObjectMotion, AccessBits.SHADER_RESOURCE, TextureLayout.SHADER_RESOURCE⟩
  , ⟨Texture.Composition, AccessBits.SHADER_RESOURCE, TextureLayout.SHADER_RESOURCE⟩
  , ⟨if isEven then Texture.TaaHistoryPrev else Texture.TaaHistory,
      AccessBits.SHADER_RESOURCE, TextureLayout.SHADER_RESOURCE⟩
  , ⟨if isEven then Texture.TaaHistory else Texture.TaaHistoryPrev,
      AccessBits.SHADER_RESOURCE_STORAGE, TextureLayout.GENERAL⟩
  , ⟨Texture.Final, AccessBits.SHADER_RESOURCE_STORAGE, TextureLayout.GENERAL⟩ ]

end Sample

namespace Sample

/-- The number of transitions `BuildOptimizedTransitions` emits never exceeds
the number of requested texture states. -/
theorem buildOptimizedTransitions_length_le
    (g : Texture → AccessBits × TextureLayout) (ss : List TextureState) :
    ((buildOptimizedTransitions g ss).2).length ≤ ss.length := by
  induction ss generalizing g with
  | nil => simp [buildOptimizedTransitions]
  | cons s rest ih =>
    unfold buildOptimizedTransitions
    by_cases h : (g s.texture).1 ≠ s.nextAccess ∨ (g s.texture).2 ≠ s.nextLayout
    · rw [if_pos h]
      simpa using ih _
    · rw [if_neg h]
      exact (ih g).trans (Nat.le_succ _)

/-- `BuildOptimizedTransitions` emits no transition for a texture that occurs
in none of the requested states. -/
theorem buildOptimizedTransitions_filter_not_requested
    (t : Texture) (ss : List TextureState)
    (g : Texture → AccessBits × TextureLayout)
    (h : ∀ x ∈ ss, x.texture ≠ t) :
    ((buildOptimizedTransitions g ss).2).filter (fun tr => tr.texture == t) = [] := by
  induction ss generalizing g with
  | nil => simp [buildOptimizedTransitions]
  | cons s rest ih =>
    have hs : s.texture ≠ t := h s (by simp)
    have hrest : ∀ x ∈ rest, x.texture ≠ t := fun x hx => h x (by simp [hx])
    unfold buildOptimizedTransitions
    by_cases hc : (g s.texture).1 ≠ s.nextAccess ∨ (g s.texture).2 ≠ s.nextLayout
    · rw [if_pos hc]
      simp [textureTransitionStep, hs, ih _ hrest]
    · rw [if_neg hc]
      exact ih g hrest

/-- Unfolding of `buildOptimizedTransitions` on a mismatching head entry. -/
theorem buildOptimizedTransitions_cons_mismatch
    (g : Texture → AccessBits × TextureLayout) (s : TextureState)
    (rest : List TextureState)
    (h : (g s.texture).1 ≠ s.nextAccess ∨ (g s.texture).2 ≠ s.nextLayout) :
    buildOptimizedTransitions g (s :: rest)
      = ((buildOptimizedTransitions (textureTransitionStep g s).1 rest).1,
         (textureTransitionStep g s).2
           :: (buildOptimizedTransitions (textureTransitionStep g s).1 rest).2) := by
  conv_lhs => rw [buildOptimizedTransitions]
  rw [if_pos h]

/-- Unfolding of `buildOptimizedTransitions` on a matching head entry. -/
theorem buildOptimizedTransitions_cons_match
    (g : Texture → AccessBits × TextureLayout) (s : TextureState)
    (rest : List TextureState)
    (h : ¬((g s.texture).1 ≠ s.nextAccess ∨ (g s.texture).2 ≠ s.nextLayout)) :
    buildOptimizedTransitions g (s :: rest) = buildOptimizedTransitions g rest := by
  conv_lhs => rw [buildOptimizedTransitions]
  rw [if_neg h]

/-- The emitted transition of one diffing step carries the requested texture. -/
theorem textureTransitionStep_snd_texture (g : Texture → AccessBits × TextureLayout)
    (s : TextureState) : (textureTransitionStep g s).2.texture = s.texture := rfl

/-- One diffing step leaves the tracked state of every other texture alone. -/
theorem textureTransitionStep_fst_apply_ne (g : Texture → AccessBits × TextureLayout)
    (s : TextureState) (t : Texture) (h : t ≠ s.texture) :
    (textureTransitionStep g s).1 t = g t := by
  simp [textureTransitionStep, h]

/-- Per-texture emission count of `BuildOptimizedTransitions` on a request
list with pairwise-distinct textures: zero transitions for an entry whose
requested pair equals the last-recorded pair, exactly one otherwise. -/
theorem buildOptimizedTransitions_filter_count
    (g : Texture → AccessBits × TextureLayout) (ss : List TextureState)
    (hp : ss.Pairwise (fun a b => a.texture ≠ b.texture)) :
    ∀ s ∈ ss,
      (((buildOptimizedTransitions g ss).2).filter
          (fun tr => tr.texture == s.texture)).length
        = if g s.texture = (s.nextAccess, s.nextLayout) then 0 else 1 := by
  induction ss generalizing g with
  | nil => simp
  | cons hd rest ih =>
    rcases List.pairwise_cons.mp hp with ⟨hhd, hrest⟩
    intro s hs
    rcases List.mem_cons.mp hs with hs | hs
    · subst hs
      by_cases hc : (g s.texture).1 ≠ s.nextAccess ∨ (g s.texture).2 ≠ s.nextLayout
      · rw [buildOptimizedTransitions_cons_mismatch g s rest hc]
        have hnone := buildOptimizedTransitions_filter_not_requested s.texture rest
          ((textureTransitionStep g s).1) (fun x hx => (hhd x hx).symm)
        have hcond : ¬ g s.texture = (s.nextAccess, s.nextLayout) := by
          rw [Prod.ext_iff]
          tauto
        rw [List.filter_cons]
        have hhead : ((textureTransitionStep g s).2.texture == s.texture) = true := by
          simp [textureTransitionStep_snd_texture]
        rw [hhead, if_pos rfl, hnone, if_neg hcond]
        rfl
      · rw [buildOptimizedTransitions_cons_match g s rest hc]
        push_neg at hc
        have hcond : g s.texture = (s.nextAccess, s.nextLayout) := by
          rw [Prod.ext_iff]
          exact hc
        have hnone := buildOptimizedTransitions_filter_not_requested s.texture rest
          g (fun x hx => (hhd x hx).symm)
        rw [hnone, if_pos hcond]
        rfl
    · have hne : hd.texture ≠ s.texture := hhd s hs
      by_cases hc : (g hd.texture).1 ≠ hd.nextAccess ∨ (g hd.texture).2 ≠ hd.nextLayout
      · rw [buildOptimizedTransitions_cons_mismatch g hd rest hc]
        rw [List.filter_cons]
        have hhead : ((textureTransitionStep g hd).2.texture == s.texture) = false := by
          simp [textureTransitionStep_snd_texture, hne]
        rw [hhead]
        have hthis := ih ((textureTransitionStep g hd).1) hrest s hs
        rw [textureTransitionStep_fst_apply_ne g hd s.texture (fun h => hne h.symm)]
          at hthis
        simpa using hthis
      · rw [buildOptimizedTransitions_cons_match g hd rest hc]
        exact ih g hrest s hs

/-- C5: for every call to `BuildOptimizedTransitions` and every requested
texture state in its input list, no transition is emitted for a texture whose
requested next (access, layout) pair equals its last-recorded pair and exactly
one transition is emitted otherwise (stated for request lists with
pairwise-distinct textures, as all callers pass); the number of emitted
transitions never exceeds the number of requested states, and in particular
stays within the declared maximum batch size 32 for both caller lists of
`Sample::RenderFrame`. -/
theorem buildOptimizedTransitions_emission_rule_and_bound :
    (∀ (g : Texture → AccessBits × TextureLayout) (states : List TextureState),
      ((buildOptimizedTransitions g states).2).length ≤ states.length)
    ∧ (∀ (g : Texture → AccessBits × TextureLayout) (states : List TextureState),
        states.Pairwise (fun a b => a.texture ≠ b.texture) →
        ∀ s ∈ states,
          (((buildOptimizedTransitions g states).2).filter
              (fun tr => tr.texture == s.texture)).length
            = if g s.texture = (s.nextAccess, s.nextLayout) then 0 else 1)
    ∧ (∀ (g : Texture → AccessBits × TextureLayout),
        ((buildOptimizedTransitions g compositionTransitions).2).length
          ≤ optimizedTransitionsMaxNum)
    ∧ (∀ (g : Texture → AccessBits × TextureLayout) (isEven : Bool),
        ((buildOptimizedTransitions g (temporalTransitions isEven)).2).length
          ≤ optimizedTransitionsMaxNum) := by
  refine ⟨buildOptimizedTransitions_length_le, buildOptimizedTransitions_filter_count,
    ?_, ?_⟩
  · intro g
    exact (buildOptimizedTransitions_length_le g _).trans (by decide)
  · intro g isEven
    exact (buildOptimizedTransitions_length_le g _).trans (by cases isEven <;> decide)

/-- Witness for C5: with every record initially in copy-destination state,
the Composition caller list emits exactly one transition for the
direct-lighting texture. -/
theorem buildOptimizedTransitions_emission_rule_and_bound_witness :
    (((buildOptimizedTransitions
          (fun _ => (AccessBits.COPY_DESTINATION, TextureLayout.COPY_DESTINATION))
          compositionTransitions).2).filter
        (fun tr => tr.texture == Texture.DirectLighting)).length = 1 := by
  have h := buildOptimizedTransitions_emission_rule_and_bound.2.1
    (fun _ => (AccessBits.COPY_DESTINATION, TextureLayout.COPY_DESTINATION))
    compositionTransitions (by decide)
    ⟨Texture.DirectLighting, AccessBits.SHADER_RESOURCE, TextureLayout.SHADER_RESOURCE⟩
    (by decide)
  simpa using h

end Sample

namespace NRD

/-- The denoising methods of the public API (`nrd::Method`); the exact
member list lives in NRDDescs.h outside src, but only distinctness of
method tags matters here. -/
inductive Method
  | REBLUR_DIFFUSE
  | REBLUR_SPECULAR
  | REBLUR_DIFFUSE_SPECULAR
  | REBLUR_DIFFUSE_SPECULAR_OCCLUSION
  | SIGMA_SHADOW
  | RELAX_DIFFUSE_SPECULAR
  | SVGF
  deriving DecidableEq, Repr

/-- Success/failure result of a public API call (`nrd::Result`). -/
inductive Result
  | SUCCESS
  | FAILURE
  deriving DecidableEq, Repr

/-- Modelled from the spec: the implementation of the denoiser aggregate
behind `nrd::SetMethodSettings` is not under src (only its declaration in
NRD.h is); per the spec a denoiser is "an opaque aggregate of merged pass
graphs + pools + per-method settings", so it is modelled as the set of
methods requested at creation together with the current effective settings
of each method (the settings payload abstracted to an opaque value). -/
structure Denoiser where
  methods : List Method
  methodSettings : Method → ℕ

/-- Modelled from the spec: `SetMethodSettings(Denoiser, Method, settings)`
"validates the method is present in the denoiser; replaces that method's
effective settings for subsequent frames; failure if the method was not
requested at creation". -/
def setMethodSettings (d : Denoiser) (m : Method) (s : ℕ) : Result × Denoiser :=
  if m ∈ d.methods then
    (Result.SUCCESS,
     { d with methodSettings := fun m2 => if m2 = m then s else d.methodSettings m2 })
  else
    (Result.FAILURE, d)

/-- C8: calling `SetMethodSettings` for a method that was not requested at
creation returns a failure result, and the failing call leaves the
denoiser's method list and the effective settings of every method (in
particular every included one) unchanged. -/
theorem setMethodSettings_absent_method_fails (d : Denoiser) (m : Method)
    (s : ℕ) (h : m ∉ d.methods) :
    (setMethodSettings d m s).1 = Result.FAILURE
    ∧ (setMethodSettings d m s).2.methods = d.methods
    ∧ ∀ m2, (setMethodSettings d m s).2.methodSettings m2 = d.methodSettings m2 := by
  simp [setMethodSettings, h]

/-- Witness for C8: setting shadow settings on a denoiser created with only
the diffuse+specular occlusion method fails and leaves the occlusion
method's settings intact. -/
theorem setMethodSettings_absent_method_fails_witness :
    (setMethodSettings
        { methods := [Method.REBLUR_DIFFUSE_SPECULAR_OCCLUSION]
          methodSettings := fun _ => 7 }
        Method.SIGMA_SHADOW 42).1 = Result.FAILURE
    ∧ (setMethodSettings
        { methods := [Method.REBLUR_DIFFUSE_SPECULAR_OCCLUSION]
          methodSettings := fun _ => 7 }
        Method.SIGMA_SHADOW 42).2.methodSettings
        Method.REBLUR_DIFFUSE_SPECULAR_OCCLUSION = 7 := by
  have h := setMethodSettings_absent_method_fails
    { methods := [Method.REBLUR_DIFFUSE_SPECULAR_OCCLUSION]
      methodSettings := fun _ => 7 }
    Method.SIGMA_SHADOW 42 (by decide)
  exact ⟨h.1, h.2.2 Method.REBLUR_DIFFUSE_SPECULAR_OCCLUSION⟩

end NRD

namespace Sample

/-- The sample's `Settings` struct as far as the test-mode snapshot logic
inspects it: the `motionStartTime` field (a double that the snapshot code
only compares against 0.0 and overwrites with -1.0 or 0.0, modelled as a
rational) plus the remaining fields abstracted into one opaque blob. The
snapshot file stores the whole struct, so record equality models
byte-for-byte equality of every field. -/
structure Settings where
  motionStartTime : ℚ
  otherFields : ℕ
  deriving DecidableEq, Repr

/-- The camera data blob written after the settings in each snapshot record
(`m_Camera.GetDataPtr()` over `m_Camera.GetDataSize()` bytes), abstracted
as an opaque value. -/
structure CameraData where
  bytes : ℕ
  deriving DecidableEq, Repr

/-- One fixed-size record of `tests.bin`: `sizeof(m_Settings)` bytes of
settings followed by the camera blob
(`itemSize = sizeof(m_Settings) + m_Camera.GetDataSize()`). -/
structure SnapshotRecord where
  settings : Settings
  camera : CameraData
  deriving DecidableEq, Repr

/-- The in-session state the test-mode panel of `Sample::PrepareFrame`
manipulates: the live settings, the live camera data, and the contents of
`tests.bin` as a list of fixed-size records. -/
structure TestSession where
  settings : Settings
  camera : CameraData
  file : List SnapshotRecord
  deriving DecidableEq, Repr

/-- The "Add" button handler of the test-mode panel in
`Sample::PrepareFrame`: it first overwrites the live
`m_Settings.motionStartTime` (`motionStartTime > 0.0 ? -1.0 : 0.0`) and
then appends one record holding the now-current live settings and camera
data to `tests.bin`. -/
def addSnapshot (st : TestSession) : TestSession :=
  let s' : Settings :=
    { st.settings with
        motionStartTime := if st.settings.motionStartTime > 0 then -1 else 0 }
  { st with
      settings := s'
      file := st.file ++ [{ settings := s', camera := st.camera }] }

/-- A numbered load button of the test-mode panel in
`Sample::PrepareFrame`: seeks to record `i` of `tests.bin` and reads it back
into the live settings and camera (no effect when the record does not
exist). -/
def loadSnapshot (st : TestSession) (i : ℕ) : TestSession :=
  match st.file.get? i with
  | some r => { st with settings := r.settings, camera := r.camera }
  | none => st

/-- C4: in test mode, appending a settings+camera snapshot via "Add" and then
immediately loading that record back in the same session reproduces exactly
the Settings and camera state that were active at the moment of the append
(the state the fixed-size record was written from), byte-for-byte for every
field of the record. -/
theorem add_then_load_roundtrip (st : TestSession) :
    loadSnapshot (addSnapshot st) ((addSnapshot st).file.length - 1) = addSnapshot st := by
  have hget : (addSnapshot st).file[((addSnapshot st).file.length - 1)]?
      = some { settings := (addSnapshot st).settings, camera := (addSnapshot st).camera } := by
    simp [addSnapshot, List.getElem?_concat_length]
  simp only [loadSnapshot, List.get?_eq_getElem?, hget]

/-- Test-mode operations touching `tests.bin` within one session: the "Add"
button or a numbered load button. -/
inductive TestOp
  | add
  | load (i : ℕ)
  deriving DecidableEq, Repr

/-- One step of the test-mode panel state machine. -/
def applyTestOp (st : TestSession) : TestOp → TestSession
  | TestOp.add => addSnapshot st
  | TestOp.load i => loadSnapshot st i

/-- Loading a snapshot never changes the snapshot file. -/
theorem loadSnapshot_file (st : TestSession) (i : ℕ) :
    (loadSnapshot st i).file = st.file := by
  unfold loadSnapshot
  cases h : st.file.get? i <;> simp

/-- Every record ever appended to `tests.bin` within a session of add/load
operations has a non-positive `motionStartTime`. -/
theorem testOps_file_motion_nonpositive (ops : List TestOp) (st : TestSession)
    (h : ∀ r ∈ st.file, ¬ r.settings.motionStartTime > 0) :
    ∀ r ∈ (ops.foldl applyTestOp st).file, ¬ r.settings.motionStartTime > 0 := by
  induction ops generalizing st with
  | nil => exact h
  | cons op rest ih =>
    show ∀ r ∈ (rest.foldl applyTestOp (applyTestOp st op)).file, _
    apply ih
    cases op with
    | add =>
      intro r hr
      have hr' : r ∈ st.file
          ∨ r = { settings :=
                    { motionStartTime :=
                        if 0 < st.settings.motionStartTime then -1 else 0
                      otherFields := st.settings.otherFields }
                  camera := st.camera } := by
        simpa [applyTestOp, addSnapshot] using hr
      rcases hr' with hr2 | hr2
      · exact h r hr2
      · have hval : r.settings.motionStartTime
            = if 0 < st.settings.motionStartTime then (-1 : ℚ) else 0 := by
          rw [hr2]
        rw [gt_iff_lt, hval]
        split_ifs <;> norm_num
    | load i =>
      intro r hr
      rw [applyTestOp, loadSnapshot_file] at hr
      exact h r hr

/-- C9: the "Add" handler first overwrites the in-memory
`Settings.motionStartTime` — to -1.0 if it was greater than 0.0 and to 0.0
otherwise — and only then writes the settings record, so the appended record
carries the mutated live settings; consequently, over any sequence of
test-mode add/load operations starting from an empty `tests.bin`, no
persisted record has `motionStartTime` greater than 0.0. -/
theorem add_snapshot_motion_start_time (st : TestSession) (ops : List TestOp)
    (h : st.file = []) :
    ((addSnapshot st).settings.motionStartTime
      = if st.settings.motionStartTime > 0 then -1 else 0)
    ∧ ((addSnapshot st).file
      = st.file ++ [{ settings := (addSnapshot st).settings, camera := st.camera }])
    ∧ ∀ r ∈ (ops.foldl applyTestOp st).file, ¬ r.settings.motionStartTime > 0 := by
  refine ⟨rfl, rfl, ?_⟩
  apply testOps_file_motion_nonpositive
  rw [h]
  intro r hr
  simp at hr

/-- Witness for C9: a session starting with `motionStartTime = 5` and an
empty `tests.bin`; one "Add" stores -1 into the live settings and leaves no
record with a positive `motionStartTime`. -/
theorem add_snapshot_motion_start_time_witness :
    ((addSnapshot ⟨⟨5, 0⟩, ⟨0⟩, []⟩).settings.motionStartTime = -1)
    ∧ ∀ r ∈ (([TestOp.add]).foldl applyTestOp ⟨⟨5, 0⟩, ⟨0⟩, []⟩).file,
        ¬ r.settings.motionStartTime > 0 := by
  have h := add_snapshot_motion_start_time ⟨⟨5, 0⟩, ⟨0⟩, []⟩ [TestOp.add] rfl
  refine ⟨?_, h.2.2⟩
  rw [h.1]
  norm_num

end Sample
